import Mathlib

/-!
Verification development for the inox2d-wasm viewport application.

The orchestrator state machine of src/main.rs (the body of the closure passed
to the winit event loop, together with the mutable state it captures) is
embedded as a pure step function, following the shape suggested by the
transition table of the design document: each delivered occurrence maps the
captured state to a new state, a list of collaborator calls made in order,
and an outcome flag recording whether the closure returned normally or
panicked.  The winit host contract (once the control flow is set to Exit, no
further occurrence is delivered to the closure) is embedded in a pump that
folds the step over a list of occurrences and stops pumping on Exit or panic.

Frame acquisition (surface.get_current_texture) is an external collaborator
whose result is not determined by this code, so the step takes the result of
the acquisition attempt as an explicit input.

The ExampleSceneController (mod scene, src/scene.rs) is declared by main.rs
but its source file is not in the repository snapshot; its operations used by
the camera claims are modelled from the design document, over the rationals,
and are marked as such in their doc comments.
-/

namespace InoxWasm

/-- Texture format of the surface configuration; main.rs uses Bgra8Unorm. -/
inductive TexFormat
  | Bgra8Unorm
  | OtherFormat (code : Nat)
deriving DecidableEq, Repr

/-- Present mode of the surface configuration; main.rs uses Fifo. -/
inductive PresentMode
  | Fifo
  | OtherMode (code : Nat)
deriving DecidableEq, Repr

/-- Composite alpha mode; main.rs picks PreMultiplied when supported, else the
first supported mode reported by the adapter. -/
inductive AlphaMode
  | PreMultiplied
  | OtherAlpha (code : Nat)
deriving DecidableEq, Repr

/-- The wgpu SurfaceConfiguration value captured mutably by the event-loop
closure (main.rs lines 70-78).  Only width and height are ever mutated. -/
structure SurfaceConfiguration where
  usage : Nat
  format : TexFormat
  width : Nat
  height : Nat
  present_mode : PresentMode
  alpha_mode : AlphaMode
  view_formats : List Nat
deriving DecidableEq, Repr

/-- Element state of a keyboard input, as in winit. -/
inductive ElementState
  | Pressed
  | Released
deriving DecidableEq, Repr

/-- Virtual key codes; only Escape is inspected by main.rs. -/
inductive Key
  | Escape
  | OtherKey (code : Nat)
deriving DecidableEq, Repr

/-- Window events, as matched by the inner match of main.rs lines 127-151.
The catch-all constructor stands for every other winit window event. -/
inductive WindowEvent
  | CloseRequested
  | KeyboardInput (state : ElementState) (key : Option Key)
  | Resized (width height : Nat)
  | OtherWindowEvent (tag : Nat)
deriving DecidableEq, Repr

/-- Host occurrences, as matched by the outer match of main.rs lines 112-157. -/
inductive Event
  | RedrawRequested
  | WindowEvent (we : WindowEvent)
  | MainEventsCleared
  | Other (tag : Nat)
deriving DecidableEq, Repr

/-- Errors of surface.get_current_texture, as in wgpu SurfaceError. -/
inductive SurfaceErr
  | Timeout
  | Outdated
  | Lost
  | OutOfMemory
deriving DecidableEq, Repr

/-- Result of the frame-acquisition attempt, an input to the step since it is
decided by the external surface collaborator. -/
inductive AcquireResult
  | ok
  | err (e : SurfaceErr)
deriving DecidableEq, Repr

/-- Collaborator calls the closure makes, in program order.  AcquireFrame
carries the size at which the surface was last configured (the size of the
presentable frame it would return); Render carries the internal viewport the
renderer holds from construction or from its last resize call. -/
inductive Call
  | Update
  | BeginSetParams
  | CurrentElapsed
  | EndSetParams
  | AcquireFrame (width height : Nat)
  | Render (width height : Nat)
  | Present
  | ConfigureSurface (cfg : SurfaceConfiguration)
  | RendererResize (width height : Nat)
  | RequestRedraw
  | Interact (we : WindowEvent)
deriving DecidableEq, Repr

/-- The winit control flow value mutated by the closure: main.rs only ever
assigns Exit; Poll stands for every non-Exit value (the loop keeps running). -/
inductive ControlFlow
  | Poll
  | Exit
deriving DecidableEq, Repr

/-- Whether the closure body returned normally or panicked (the unwrap on
frame acquisition at main.rs line 121 is the only panic site). -/
inductive StepOutcome
  | normal
  | panicked
deriving DecidableEq, Repr

/-- The mutable state captured by the event-loop closure: the surface
configuration, the size the surface collaborator was last configured at, the
internal viewport of the renderer collaborator, and the control flow cell. -/
structure LoopState where
  config : SurfaceConfiguration
  surfaceSize : Nat × Nat
  rendererViewport : Nat × Nat
  flow : ControlFlow
deriving DecidableEq, Repr

/-- One invocation of the event-loop closure of main.rs lines 112-158 on a
single occurrence: returns the new captured state, the collaborator calls
made in order, and whether the body panicked.

RedrawRequested (lines 113-126): update the scene controller, bracket the
parameter edit (with the dormant elapsed-time read at line 117 inside the
bracket), then attempt frame acquisition; on success create the view, render
and present; on any acquisition error the unwrap panics, so render and
present are not reached.

Window events (lines 127-151): CloseRequested or a Pressed Escape key sets
the control flow to Exit; Resized overwrites the width and height of the
stored configuration, reconfigures the surface with it, resizes the renderer
viewport and requests one redraw; every other window event is forwarded to
the scene controller interact call.

MainEventsCleared (lines 152-156) requests another redraw; every other
occurrence does nothing (line 157). -/
def step (s : LoopState) (acq : AcquireResult) (e : Event) :
    LoopState × List Call × StepOutcome :=
  match e with
  | .RedrawRequested =>
    match acq with
    | .ok =>
      (s, [.Update, .BeginSetParams, .CurrentElapsed, .EndSetParams,
           .AcquireFrame s.surfaceSize.1 s.surfaceSize.2,
           .Render s.rendererViewport.1 s.rendererViewport.2, .Present], .normal)
    | .err _ =>
      (s, [.Update, .BeginSetParams, .CurrentElapsed, .EndSetParams,
           .AcquireFrame s.surfaceSize.1 s.surfaceSize.2], .panicked)
  | .WindowEvent we =>
    match we with
    | .CloseRequested => ({ s with flow := .Exit }, [], .normal)
    | .KeyboardInput .Pressed (some .Escape) => ({ s with flow := .Exit }, [], .normal)
    | .Resized w h =>
      let cfg := { s.config with width := w, height := h }
      ({ s with config := cfg, surfaceSize := (w, h), rendererViewport := (w, h) },
       [.ConfigureSurface cfg, .RendererResize w h, .RequestRedraw], .normal)
    | other => (s, [.Interact other], .normal)
  | .MainEventsCleared => (s, [.RequestRedraw], .normal)
  | .Other _ => (s, [], .normal)

/-- The host pump: deliver occurrences in order, each paired with the result
the surface collaborator would give to an acquisition attempt made while
handling it.  Per the winit contract, once the control flow cell holds Exit
the loop stops pumping; a panic aborts the program, so pumping also stops
there and the outcome records it. -/
def run (s : LoopState) : List (Event × AcquireResult) → LoopState × List Call × StepOutcome
  | [] => (s, [], .normal)
  | (e, a) :: rest =>
    match s.flow with
    | .Exit => (s, [], .normal)
    | .Poll =>
      match step s a e with
      | (s1, cs, .panicked) => (s1, cs, .panicked)
      | (s1, cs, .normal) =>
        let r := run s1 rest
        (r.1, cs ++ r.2.1, r.2.2)

/-- The captured state right after startup: a 1280 by 720 window is requested
(main.rs line 165), the surface is configured at the window inner size with
Bgra8Unorm, Fifo and the chosen alpha mode, and the renderer is constructed
with the same viewport. -/
def initState : LoopState :=
  { config :=
      { usage := 0, format := .Bgra8Unorm, width := 1280, height := 720,
        present_mode := .Fifo, alpha_mode := .PreMultiplied, view_formats := [] },
    surfaceSize := (1280, 720),
    rendererViewport := (1280, 720),
    flow := .Poll }

/-- An occurrence paired with an acquisition result is benign when handling
it neither exits, nor resizes, nor panicks: any window event other than
CloseRequested, a Pressed Escape and Resized, a redraw whose acquisition
succeeds, MainEventsCleared, and any unmatched occurrence. -/
def benign : Event → AcquireResult → Bool
  | .RedrawRequested, .ok => true
  | .RedrawRequested, .err _ => false
  | .WindowEvent .CloseRequested, _ => false
  | .WindowEvent (.KeyboardInput .Pressed (some .Escape)), _ => false
  | .WindowEvent (.Resized _ _), _ => false
  | .WindowEvent _, _ => true
  | .MainEventsCleared, _ => true
  | .Other _, _ => true

lemma step_benign (s : LoopState) (e : Event) (a : AcquireResult)
    (hb : benign e a = true) :
    (step s a e).1 = s ∧ (step s a e).2.2 = .normal := by
  rcases e with _ | we | _ | t
  · cases a
    · exact ⟨rfl, rfl⟩
    · simp [benign] at hb
  · rcases we with _ | ⟨st, k⟩ | ⟨w, h⟩ | t
    · simp [benign] at hb
    · rcases st
      · rcases k with _ | k
        · exact ⟨rfl, rfl⟩
        · rcases k
          · simp [benign] at hb
          · exact ⟨rfl, rfl⟩
      · exact ⟨rfl, rfl⟩
    · simp [benign] at hb
    · exact ⟨rfl, rfl⟩
  · exact ⟨rfl, rfl⟩
  · exact ⟨rfl, rfl⟩

lemma step_benign_acquire (s : LoopState) (e : Event) (a : AcquireResult)
    (hb : benign e a = true) (w h : Nat)
    (hm : Call.AcquireFrame w h ∈ (step s a e).2.1) : (w, h) = s.surfaceSize := by
  rcases e with _ | we | _ | t
  · cases a
    · simp only [step, List.mem_cons, List.not_mem_nil, or_false] at hm
      rcases hm with h1 | h1 | h1 | h1 | h1 | h1 | h1 <;> first
        | (injection h1 with h2 h3; rw [h2, h3])
        | exact absurd h1 (by simp)
    · simp [benign] at hb
  · rcases we with _ | ⟨st, k⟩ | ⟨w2, h2⟩ | t
    · simp [benign] at hb
    · rcases st
      · rcases k with _ | k
        · simp [step] at hm
        · rcases k
          · simp [benign] at hb
          · simp [step] at hm
      · simp [step] at hm
    · simp [benign] at hb
    · simp [step] at hm
  · simp [step] at hm
  · simp [step] at hm

lemma run_exit (s : LoopState) (hs : s.flow = .Exit)
    (evs : List (Event × AcquireResult)) : run s evs = (s, [], .normal) := by
  cases evs with
  | nil => rfl
  | cons x rest =>
    rcases x with ⟨e, a⟩
    simp only [run]
    rw [hs]

lemma run_cons_normal (s : LoopState) (e : Event) (a : AcquireResult)
    (rest : List (Event × AcquireResult)) (hs : s.flow = .Poll)
    (hn : (step s a e).2.2 = .normal) :
    run s ((e, a) :: rest) =
      ((run (step s a e).1 rest).1,
       (step s a e).2.1 ++ (run (step s a e).1 rest).2.1,
       (run (step s a e).1 rest).2.2) := by
  simp only [run]
  rw [hs]
  rcases hst : step s a e with ⟨s1, cs, o⟩
  rw [hst] at hn
  cases o
  · rfl
  · exact absurd hn (by simp)

lemma run_cons_panicked (s : LoopState) (e : Event) (a : AcquireResult)
    (rest : List (Event × AcquireResult)) (hs : s.flow = .Poll)
    (hp : (step s a e).2.2 = .panicked) :
    run s ((e, a) :: rest) = ((step s a e).1, (step s a e).2.1, .panicked) := by
  simp only [run]
  rw [hs]
  rcases hst : step s a e with ⟨s1, cs, o⟩
  rw [hst] at hp
  cases o
  · exact absurd hp (by simp)
  · rfl

lemma run_benign (evs : List (Event × AcquireResult)) :
    ∀ s : LoopState, s.flow = .Poll → (∀ x ∈ evs, benign x.1 x.2 = true) →
    (run s evs).1 = s ∧ (run s evs).2.2 = .normal ∧
      ∀ w h, Call.AcquireFrame w h ∈ (run s evs).2.1 → (w, h) = s.surfaceSize := by
  induction evs with
  | nil =>
    intro s hs hb
    refine ⟨rfl, rfl, ?_⟩
    intro w h hm
    simp [run] at hm
  | cons x rest ih =>
    rcases x with ⟨e, a⟩
    intro s hs hb
    have hbx : benign e a = true := hb (e, a) (by simp)
    have h1 := step_benign s e a hbx
    have hrw := run_cons_normal s e a rest hs h1.2
    have hsame : (step s a e).1 = s := h1.1
    rw [hsame] at hrw
    have ihr := ih s hs (fun x hx => hb x (by simp [hx]))
    rw [hrw]
    refine ⟨ihr.1, ihr.2.1, ?_⟩
    intro w h hm
    rw [List.mem_append] at hm
    rcases hm with hm | hm
    · exact step_benign_acquire s e a hbx w h hm
    · exact ihr.2.2 w h hm

lemma run_benign_append (evs rest : List (Event × AcquireResult)) :
    ∀ s : LoopState, s.flow = .Poll → (∀ x ∈ evs, benign x.1 x.2 = true) →
    run s (evs ++ rest) =
      ((run s rest).1, (run s evs).2.1 ++ (run s rest).2.1, (run s rest).2.2) := by
  induction evs with
  | nil =>
    intro s hs hb
    simp [run]
  | cons x evs2 ih =>
    rcases x with ⟨e, a⟩
    intro s hs hb
    have hbx : benign e a = true := hb (e, a) (by simp)
    have h1 := step_benign s e a hbx
    have hrw1 := run_cons_normal s e a (evs2 ++ rest) hs h1.2
    have hrw2 := run_cons_normal s e a evs2 hs h1.2
    rw [h1.1] at hrw1 hrw2
    rw [List.cons_append, hrw1, hrw2, ih s hs (fun x hx => hb x (by simp [hx]))]
    simp

/-- Claim C1, counterexample: the claim states that when frame acquisition
fails with a recoverable cause (surface lost or outdated) the orchestrator
reconfigures the surface and skips the frame without terminating.  On the
code this is false: the unwrap at main.rs line 121 panicks on every
acquisition error.  At the initial state, a redraw whose acquisition fails
with Outdated panicks, the call list contains no surface reconfiguration,
and a following occurrence is never processed (the loop is dead). -/
theorem claim_C1_counterexample :
    (step initState (.err .Outdated) .RedrawRequested).2.2 = .panicked ∧
    (step initState (.err .Outdated) .RedrawRequested).2.1 =
      [.Update, .BeginSetParams, .CurrentElapsed, .EndSetParams,
       .AcquireFrame 1280 720] ∧
    run initState [(.RedrawRequested, .err .Outdated), (.MainEventsCleared, .ok)] =
      (initState,
       [.Update, .BeginSetParams, .CurrentElapsed, .EndSetParams,
        .AcquireFrame 1280 720], .panicked) := by
  refine ⟨rfl, rfl, ?_⟩
  rw [run_cons_panicked initState .RedrawRequested (.err .Outdated) _ rfl rfl]
  rfl

/-- Claim C1, amended: when frame acquisition fails, with any cause
including the recoverable ones (surface lost or outdated), the pipeline
panicks at the unwrap after the acquisition attempt: the surface is not
reconfigured, render and present are skipped, and the loop terminates
instead of continuing. -/
theorem claim_C1_amended (s : LoopState) (e : SurfaceErr)
    (rest : List (Event × AcquireResult)) (hs : s.flow = .Poll) :
    step s (.err e) .RedrawRequested =
      (s, [.Update, .BeginSetParams, .CurrentElapsed, .EndSetParams,
           .AcquireFrame s.surfaceSize.1 s.surfaceSize.2], .panicked) ∧
    run s ((.RedrawRequested, .err e) :: rest) =
      (s, [.Update, .BeginSetParams, .CurrentElapsed, .EndSetParams,
           .AcquireFrame s.surfaceSize.1 s.surfaceSize.2], .panicked) := by
  refine ⟨rfl, ?_⟩
  rw [run_cons_panicked s .RedrawRequested (.err e) rest hs rfl]
  rfl

/-- Claim C1, witness for the amended theorem at the initial state with a
Lost surface and one pending occurrence after the failing redraw. -/
theorem claim_C1_amended_witness :
    initState.flow = .Poll ∧
    (step initState (.err .Lost) .RedrawRequested =
      (initState, [.Update, .BeginSetParams, .CurrentElapsed, .EndSetParams,
                   .AcquireFrame 1280 720], .panicked) ∧
     run initState [(.RedrawRequested, .err .Lost), (.MainEventsCleared, .ok)] =
      (initState, [.Update, .BeginSetParams, .CurrentElapsed, .EndSetParams,
                   .AcquireFrame 1280 720], .panicked)) :=
  ⟨rfl, claim_C1_amended initState .Lost [(.MainEventsCleared, .ok)] rfl⟩

/-- Claim C2, counterexample: the claim states that a Resized occurrence
with zero width or height skips the surface-reconfigure call and that the
next redraw skips frame acquisition, so that Resized(0,0) followed by
RedrawRequested produces zero render submissions.  On the code this is
false: the Resized arm at main.rs lines 138-149 has no zero-size guard, so
at the initial state the trace of Resized(0,0) then RedrawRequested contains
the surface-reconfigure call at size zero, the frame-acquisition attempt,
and exactly one render submission. -/
theorem claim_C2_counterexample :
    (run initState [(.WindowEvent (.Resized 0 0), .ok), (.RedrawRequested, .ok)]).2.1 =
      [.ConfigureSurface
         { usage := 0, format := .Bgra8Unorm, width := 0, height := 0,
           present_mode := .Fifo, alpha_mode := .PreMultiplied, view_formats := [] },
       .RendererResize 0 0, .RequestRedraw,
       .Update, .BeginSetParams, .CurrentElapsed, .EndSetParams,
       .AcquireFrame 0 0, .Render 0 0, .Present] ∧
    (run initState [(.WindowEvent (.Resized 0 0), .ok), (.RedrawRequested, .ok)]).2.1.count
      (Call.Render 0 0) = 1 := by
  constructor
  · decide
  · decide

/-- Claim C2, amended: a Resized occurrence with zero width or height is
handled like any other resize: the surface is reconfigured at the zero
size, the next redraw still attempts frame acquisition, and Resized(0,0)
followed by RedrawRequested produces exactly one render submission when
acquisition succeeds, not zero. -/
theorem claim_C2_amended (s : LoopState) (hs : s.flow = .Poll) :
    (run s [(.WindowEvent (.Resized 0 0), .ok), (.RedrawRequested, .ok)]).2.1 =
      [.ConfigureSurface { s.config with width := 0, height := 0 },
       .RendererResize 0 0, .RequestRedraw,
       .Update, .BeginSetParams, .CurrentElapsed, .EndSetParams,
       .AcquireFrame 0 0, .Render 0 0, .Present] ∧
    (run s [(.WindowEvent (.Resized 0 0), .ok), (.RedrawRequested, .ok)]).2.1.count
      (Call.Render 0 0) = 1 := by
  have h1 := run_cons_normal s (.WindowEvent (.Resized 0 0)) .ok
    [(.RedrawRequested, .ok)] hs rfl
  have h2 := run_cons_normal (step s .ok (.WindowEvent (.Resized 0 0))).1
    .RedrawRequested .ok [] hs rfl
  rw [h1, h2]
  constructor
  · rfl
  · rfl

/-- Claim C2, witness for the amended theorem at the initial state. -/
theorem claim_C2_amended_witness :
    initState.flow = .Poll ∧
    ((run initState [(.WindowEvent (.Resized 0 0), .ok), (.RedrawRequested, .ok)]).2.1 =
      [.ConfigureSurface
         { usage := 0, format := .Bgra8Unorm, width := 0, height := 0,
           present_mode := .Fifo, alpha_mode := .PreMultiplied, view_formats := [] },
       .RendererResize 0 0, .RequestRedraw,
       .Update, .BeginSetParams, .CurrentElapsed, .EndSetParams,
       .AcquireFrame 0 0, .Render 0 0, .Present] ∧
     (run initState [(.WindowEvent (.Resized 0 0), .ok), (.RedrawRequested, .ok)]).2.1.count
       (Call.Render 0 0) = 1) :=
  ⟨rfl, claim_C2_amended initState rfl⟩

/-- Claim C3: a RedrawRequested occurrence in the Running state runs the
frame pipeline synchronously and exactly once, in this exact order: scene
controller update, begin of the parameter-edit bracket, the dormant
elapsed-time read that the optional parameter sets would be derived from,
end of the bracket, frame acquisition, render submission into the acquired
frame view, and present; and the update call appears exactly once in the
trace of the pipeline. -/
theorem claim_C3 (s : LoopState) (hs : s.flow = .Poll) :
    step s .ok .RedrawRequested =
      (s, [.Update, .BeginSetParams, .CurrentElapsed, .EndSetParams,
           .AcquireFrame s.surfaceSize.1 s.surfaceSize.2,
           .Render s.rendererViewport.1 s.rendererViewport.2, .Present], .normal) ∧
    (step s .ok .RedrawRequested).2.1.count .Update = 1 := by
  exact ⟨rfl, rfl⟩

/-- Claim C3, witness at the initial state. -/
theorem claim_C3_witness :
    initState.flow = .Poll ∧
    (step initState .ok .RedrawRequested =
      (initState, [.Update, .BeginSetParams, .CurrentElapsed, .EndSetParams,
                   .AcquireFrame 1280 720, .Render 1280 720, .Present], .normal) ∧
     (step initState .ok .RedrawRequested).2.1.count .Update = 1) :=
  ⟨rfl, claim_C3 initState rfl⟩

/-- Claim C4: the Exit control flow is terminal.  A CloseRequested window
event or a Pressed Escape key delivered while the loop is running sets the
control flow to Exit; from that point the pump delivers nothing more, so no
subsequent occurrence transitions the loop back to running and no further
redraw pipeline executes: the run of any remaining occurrence list from the
exited state makes no collaborator call and leaves the state exited. -/
theorem claim_C4 (s : LoopState) (a : AcquireResult) (we : WindowEvent)
    (rest : List (Event × AcquireResult)) (hs : s.flow = .Poll)
    (hwe : we = .CloseRequested ∨ we = .KeyboardInput .Pressed (some .Escape)) :
    (step s a (.WindowEvent we)).1.flow = .Exit ∧
    run (step s a (.WindowEvent we)).1 rest =
      ((step s a (.WindowEvent we)).1, [], .normal) := by
  rcases hwe with h | h
  · subst h
    exact ⟨rfl, run_exit _ rfl rest⟩
  · subst h
    exact ⟨rfl, run_exit _ rfl rest⟩

/-- Claim C4, witness: CloseRequested at the initial state, with a pending
redraw afterwards that is never delivered. -/
theorem claim_C4_witness :
    initState.flow = .Poll ∧
    (initState.config.width = 1280 ∨
      WindowEvent.CloseRequested = WindowEvent.CloseRequested) ∧
    ((step initState .ok (.WindowEvent .CloseRequested)).1.flow = .Exit ∧
     run (step initState .ok (.WindowEvent .CloseRequested)).1 [(.RedrawRequested, .ok)] =
       ((step initState .ok (.WindowEvent .CloseRequested)).1, [], .normal)) :=
  ⟨rfl, Or.inr rfl,
    claim_C4 initState .ok .CloseRequested [(.RedrawRequested, .ok)] rfl (Or.inl rfl)⟩

/-- Claim C6: a Resized(w,h) occurrence in the Running state overwrites the
width and height of the stored configuration and nothing else, reconfigures
the surface with the updated configuration, resizes the renderer viewport to
(w,h), requests exactly one redraw, and stays in the Running state. -/
theorem claim_C6 (s : LoopState) (a : AcquireResult) (w h : Nat)
    (hs : s.flow = .Poll) :
    step s a (.WindowEvent (.Resized w h)) =
      ({ s with config := { s.config with width := w, height := h },
                surfaceSize := (w, h), rendererViewport := (w, h) },
       [.ConfigureSurface { s.config with width := w, height := h },
        .RendererResize w h, .RequestRedraw], .normal) ∧
    (step s a (.WindowEvent (.Resized w h))).1.flow = .Poll ∧
    (step s a (.WindowEvent (.Resized w h))).1.config.usage = s.config.usage ∧
    (step s a (.WindowEvent (.Resized w h))).1.config.format = s.config.format ∧
    (step s a (.WindowEvent (.Resized w h))).1.config.present_mode = s.config.present_mode ∧
    (step s a (.WindowEvent (.Resized w h))).1.config.alpha_mode = s.config.alpha_mode ∧
    (step s a (.WindowEvent (.Resized w h))).1.config.view_formats = s.config.view_formats ∧
    (step s a (.WindowEvent (.Resized w h))).2.1.count .RequestRedraw = 1 := by
  exact ⟨rfl, hs, rfl, rfl, rfl, rfl, rfl, rfl⟩

/-- Claim C6, witness: a resize to 640 by 480 at the initial state. -/
theorem claim_C6_witness :
    initState.flow = .Poll ∧
    (step initState .ok (.WindowEvent (.Resized 640 480)) =
      ({ config :=
           { usage := 0, format := .Bgra8Unorm, width := 640, height := 480,
             present_mode := .Fifo, alpha_mode := .PreMultiplied, view_formats := [] },
         surfaceSize := (640, 480), rendererViewport := (640, 480), flow := .Poll },
       [.ConfigureSurface
          { usage := 0, format := .Bgra8Unorm, width := 640, height := 480,
            present_mode := .Fifo, alpha_mode := .PreMultiplied, view_formats := [] },
        .RendererResize 640 480, .RequestRedraw], .normal) ∧
     (step initState .ok (.WindowEvent (.Resized 640 480))).1.flow = .Poll ∧
     (step initState .ok (.WindowEvent (.Resized 640 480))).1.config.usage =
       initState.config.usage ∧
     (step initState .ok (.WindowEvent (.Resized 640 480))).1.config.format =
       initState.config.format ∧
     (step initState .ok (.WindowEvent (.Resized 640 480))).1.config.present_mode =
       initState.config.present_mode ∧
     (step initState .ok (.WindowEvent (.Resized 640 480))).1.config.alpha_mode =
       initState.config.alpha_mode ∧
     (step initState .ok (.WindowEvent (.Resized 640 480))).1.config.view_formats =
       initState.config.view_formats ∧
     (step initState .ok (.WindowEvent (.Resized 640 480))).2.1.count .RequestRedraw = 1) :=
  ⟨rfl, claim_C6 initState .ok 640 480 rfl⟩

/-- Claim C7: any window event other than CloseRequested, a Pressed Escape
key and Resized, delivered in the Running state, is forwarded to the scene
controller interact call and the loop stays running: the step makes exactly
the one Interact call carrying the event and leaves the state unchanged. -/
theorem claim_C7 (s : LoopState) (a : AcquireResult) (we : WindowEvent)
    (hs : s.flow = .Poll)
    (h1 : we ≠ .CloseRequested)
    (h2 : we ≠ .KeyboardInput .Pressed (some .Escape))
    (h3 : ∀ w h, we ≠ .Resized w h) :
    step s a (.WindowEvent we) = (s, [.Interact we], .normal) ∧
    (step s a (.WindowEvent we)).1.flow = .Poll := by
  have key : step s a (.WindowEvent we) = (s, [.Interact we], .normal) := by
    rcases we with _ | ⟨st, k⟩ | ⟨w, h⟩ | t
    · exact absurd rfl h1
    · rcases st
      · rcases k with _ | k
        · rfl
        · rcases k
          · exact absurd rfl h2
          · rfl
      · rfl
    · exact absurd rfl (h3 w h)
    · rfl
  rw [key]
  exact ⟨rfl, hs⟩

/-- Claim C7, witness: a generic window event at the initial state. -/
theorem claim_C7_witness :
    initState.flow = .Poll ∧
    (WindowEvent.OtherWindowEvent 7 ≠ WindowEvent.CloseRequested) ∧
    (WindowEvent.OtherWindowEvent 7 ≠
      WindowEvent.KeyboardInput .Pressed (some .Escape)) ∧
    (∀ w h, WindowEvent.OtherWindowEvent 7 ≠ WindowEvent.Resized w h) ∧
    (step initState .ok (.WindowEvent (.OtherWindowEvent 7)) =
      (initState, [.Interact (.OtherWindowEvent 7)], .normal) ∧
     (step initState .ok (.WindowEvent (.OtherWindowEvent 7))).1.flow = .Poll) :=
  ⟨rfl, by simp, by simp, by simp,
    claim_C7 initState .ok (.OtherWindowEvent 7) rfl (by simp) (by simp) (by simp)⟩

/-- Claim C5: resize before render.  After a Resized(w2,h2) occurrence, any
benign stretch of occurrences (no further resize, no exit, no panicking
redraw) followed by a RedrawRequested produces a final frame pipeline whose
acquisition and render submission are at size (w2,h2): the reconfigure and
renderer-resize calls appear in the trace before that acquisition, and no
acquisition anywhere in the stretch after the resize is at any other size,
so a stale-sized frame is never submitted. -/
theorem claim_C5 (s : LoopState) (w2 h2 : Nat) (mid : List (Event × AcquireResult))
    (hs : s.flow = .Poll) (hmid : ∀ x ∈ mid, benign x.1 x.2 = true) :
    ∃ cs,
      (run s ((.WindowEvent (.Resized w2 h2), .ok) ::
          (mid ++ [(.RedrawRequested, .ok)]))).2.1 =
        [.ConfigureSurface { s.config with width := w2, height := h2 },
         .RendererResize w2 h2, .RequestRedraw] ++ cs ++
        [.Update, .BeginSetParams, .CurrentElapsed, .EndSetParams,
         .AcquireFrame w2 h2, .Render w2 h2, .Present] ∧
      ∀ w h, Call.AcquireFrame w h ∈ cs → w = w2 ∧ h = h2 := by
  set s1 : LoopState :=
    { s with config := { s.config with width := w2, height := h2 },
             surfaceSize := (w2, h2), rendererViewport := (w2, h2) } with hs1
  have hflow1 : s1.flow = .Poll := hs
  have hA := run_cons_normal s (.WindowEvent (.Resized w2 h2)) .ok
    (mid ++ [(.RedrawRequested, .ok)]) hs rfl
  have hproj1 : (step s .ok (.WindowEvent (.Resized w2 h2))).1 = s1 := rfl
  have hproj2 : (step s .ok (.WindowEvent (.Resized w2 h2))).2.1 =
      [.ConfigureSurface { s.config with width := w2, height := h2 },
       .RendererResize w2 h2, .RequestRedraw] := rfl
  rw [hproj1, hproj2] at hA
  have hB := run_benign_append mid [(.RedrawRequested, .ok)] s1 hflow1 hmid
  have hC : run s1 [(.RedrawRequested, .ok)] =
      (s1, [.Update, .BeginSetParams, .CurrentElapsed, .EndSetParams,
            .AcquireFrame w2 h2, .Render w2 h2, .Present], .normal) := by
    rw [run_cons_normal s1 .RedrawRequested .ok [] hflow1 rfl]
    rfl
  have hb := run_benign mid s1 hflow1 hmid
  refine ⟨(run s1 mid).2.1, ?_, ?_⟩
  · rw [hA, hB, hC]
    simp
  · intro w h hm
    have hwh := hb.2.2 w h hm
    have hsz : s1.surfaceSize = (w2, h2) := rfl
    rw [hsz] at hwh
    exact ⟨congrArg Prod.fst hwh, congrArg Prod.snd hwh⟩

/-- Claim C5, witness: a resize to 640 by 480 at the initial state, with one
benign pointer event and one benign full redraw between the resize and the
final redraw. -/
theorem claim_C5_witness :
    initState.flow = .Poll ∧
    (∀ x ∈ ([(Event.WindowEvent (.OtherWindowEvent 3), AcquireResult.ok),
             (Event.RedrawRequested, AcquireResult.ok)] :
        List (Event × AcquireResult)), benign x.1 x.2 = true) ∧
    (∃ cs,
      (run initState ((.WindowEvent (.Resized 640 480), .ok) ::
          ([(Event.WindowEvent (.OtherWindowEvent 3), AcquireResult.ok),
            (Event.RedrawRequested, AcquireResult.ok)] ++
           [(.RedrawRequested, .ok)]))).2.1 =
        [.ConfigureSurface { initState.config with width := 640, height := 480 },
         .RendererResize 640 480, .RequestRedraw] ++ cs ++
        [.Update, .BeginSetParams, .CurrentElapsed, .EndSetParams,
         .AcquireFrame 640 480, .Render 640 480, .Present] ∧
      ∀ w h, Call.AcquireFrame w h ∈ cs → w = 640 ∧ h = 480) :=
  ⟨rfl, by decide,
    claim_C5 initState 640 480
      [(Event.WindowEvent (.OtherWindowEvent 3), AcquireResult.ok),
       (Event.RedrawRequested, AcquireResult.ok)] rfl (by decide)⟩

/-- Claim C10: an Escape keyboard event whose element state is Released does
not exit the loop: the Pressed pattern in the exit arm does not match it, so
it falls through to the catch-all arm, is forwarded to the scene controller
interact call, and the state, in particular the control flow, is unchanged. -/
theorem claim_C10 (s : LoopState) (a : AcquireResult) :
    step s a (.WindowEvent (.KeyboardInput .Released (some .Escape))) =
      (s, [.Interact (.KeyboardInput .Released (some .Escape))], .normal) := by
  rfl

/-- Modelled from the spec: the scene controller source (src/scene.rs,
declared by mod scene in main.rs) is absent from the repository snapshot, so
the camera it mutates is taken from the design document, over the rationals.
The camera holds a position, a componentwise-positive scale, and a rotation;
the rotation angle is represented here by its direction vector, the cosine
and sine of the angle, so that the inverse rotation is exact rational
arithmetic. -/
structure Camera where
  position : ℚ × ℚ
  scale : ℚ × ℚ
  rotDir : ℚ × ℚ
deriving DecidableEq, Repr

/-- Modelled from the spec: clamp one scale component into the configured
range from min_scale to max_scale. -/
def clampComp (lo hi x : ℚ) : ℚ := max lo (min hi x)

/-- Modelled from the spec: the Scroll(delta) arm of the missing scene
controller interact operation multiplies the camera scale componentwise by
(1 + zoom_speed) ^ delta and then clamps every component into the
configured range. -/
def applyScroll (zoom lo hi : ℚ) (cam : Camera) (delta : ℤ) : Camera :=
  { cam with scale :=
      (clampComp lo hi (cam.scale.1 * (1 + zoom) ^ delta),
       clampComp lo hi (cam.scale.2 * (1 + zoom) ^ delta)) }

/-- Both scale components lie in the configured range and are positive. -/
def scaleWithin (lo hi : ℚ) (cam : Camera) : Prop :=
  lo ≤ cam.scale.1 ∧ cam.scale.1 ≤ hi ∧ lo ≤ cam.scale.2 ∧ cam.scale.2 ≤ hi ∧
    0 < cam.scale.1 ∧ 0 < cam.scale.2

lemma clampComp_bounds (lo hi x : ℚ) (h0 : 0 < lo) (hle : lo ≤ hi) :
    lo ≤ clampComp lo hi x ∧ clampComp lo hi x ≤ hi ∧ 0 < clampComp lo hi x :=
  ⟨le_max_left lo _, max_le hle (min_le_left hi x),
   lt_of_lt_of_le h0 (le_max_left lo _)⟩

lemma applyScroll_within (zoom lo hi : ℚ) (cam : Camera) (delta : ℤ)
    (h0 : 0 < lo) (hle : lo ≤ hi) :
    scaleWithin lo hi (applyScroll zoom lo hi cam delta) := by
  have h1 := clampComp_bounds lo hi (cam.scale.1 * (1 + zoom) ^ delta) h0 hle
  have h2 := clampComp_bounds lo hi (cam.scale.2 * (1 + zoom) ^ delta) h0 hle
  exact ⟨h1.1, h1.2.1, h2.1, h2.2.1, h1.2.2, h2.2.2⟩

lemma foldl_applyScroll_within (zoom lo hi : ℚ) (h0 : 0 < lo) (hle : lo ≤ hi) :
    ∀ (deltas : List ℤ) (cam : Camera), scaleWithin lo hi cam →
      scaleWithin lo hi (deltas.foldl (applyScroll zoom lo hi) cam) := by
  intro deltas
  induction deltas with
  | nil => intro cam hc; exact hc
  | cons d rest ih =>
    intro cam _
    rw [List.foldl_cons]
    exact ih (applyScroll zoom lo hi cam d) (applyScroll_within zoom lo hi cam d h0 hle)

/-- Claim C8: for every finite sequence of Scroll events, each of which
multiplies the scale componentwise by (1 + zoom_speed) ^ delta and clamps
into the configured range, the final scale after at least one event has both
components inside the range and strictly positive, regardless of the
cumulative scroll input and of the starting scale. -/
theorem claim_C8 (zoom lo hi : ℚ) (cam : Camera) (deltas : List ℤ)
    (h0 : 0 < lo) (hle : lo ≤ hi) (hne : deltas ≠ []) :
    scaleWithin lo hi (deltas.foldl (applyScroll zoom lo hi) cam) := by
  cases deltas with
  | nil => exact absurd rfl hne
  | cons d rest =>
    rw [List.foldl_cons]
    exact foldl_applyScroll_within zoom lo hi h0 hle rest
      (applyScroll zoom lo hi cam d) (applyScroll_within zoom lo hi cam d h0 hle)

/-- Claim C8, witness: zoom speed one, range from one to ten, three scroll
events from scale one. -/
theorem claim_C8_witness :
    (0 : ℚ) < 1 ∧ (1 : ℚ) ≤ 10 ∧ ([1, 1, -2] : List ℤ) ≠ [] ∧
    scaleWithin 1 10
      (([1, 1, -2] : List ℤ).foldl (applyScroll 1 1 10)
        { position := (0, 0), scale := (1, 1), rotDir := (1, 0) }) :=
  ⟨by decide, by decide, by decide,
    claim_C8 1 1 10
      { position := (0, 0), scale := (1, 1), rotDir := (1, 0) }
      [1, 1, -2] (by decide) (by decide) (by decide)⟩

/-- Modelled from the spec: the drag anchor of the missing scene controller,
a pair of the screen position where the drag began and the camera position
at that moment, or none when no drag is in progress. -/
structure SceneCtrlState where
  drag_anchor : Option ((ℚ × ℚ) × (ℚ × ℚ))
deriving DecidableEq, Repr

/-- Modelled from the spec: the camera operation that inverse-transforms a
screen-space pixel delta into world units using the current scale and
rotation; the inverse rotation is applied through the direction vector and
each component is divided by the matching scale component. -/
def screen_delta_to_world (cam : Camera) (delta : ℚ × ℚ) : ℚ × ℚ :=
  ((cam.rotDir.1 * delta.1 + cam.rotDir.2 * delta.2) / cam.scale.1,
   (cam.rotDir.1 * delta.2 - cam.rotDir.2 * delta.1) / cam.scale.2)

/-- Modelled from the spec: PointerDown with the primary button records the
anchor (screen position, camera position at drag start) when no drag is in
progress, and is a no-op when one already is. -/
def pointer_down (st : SceneCtrlState) (cam : Camera) (pos : ℚ × ℚ) :
    SceneCtrlState :=
  match st.drag_anchor with
  | some _ => st
  | none => { drag_anchor := some (pos, cam.position) }

/-- Modelled from the spec: PointerMoved while the anchor is set computes
the screen delta from the anchor position to the current position, converts
it to a world delta, and sets the camera position to the anchored camera
position minus the world delta; it is a no-op when not dragging. -/
def pointer_moved (st : SceneCtrlState) (cam : Camera) (pos : ℚ × ℚ) : Camera :=
  match st.drag_anchor with
  | none => cam
  | some a =>
    let wd := screen_delta_to_world cam (pos.1 - a.1.1, pos.2 - a.1.2)
    { cam with position := (a.2.1 - wd.1, a.2.2 - wd.2) }

lemma pointer_moved_keeps (st : SceneCtrlState) (cam : Camera) (pos : ℚ × ℚ) :
    (pointer_moved st cam pos).scale = cam.scale ∧
    (pointer_moved st cam pos).rotDir = cam.rotDir := by
  cases h : st.drag_anchor <;> simp [pointer_moved, h]

lemma foldl_pointer_moved_keeps (st : SceneCtrlState) :
    ∀ (ps : List (ℚ × ℚ)) (cam : Camera),
      ((ps.foldl (pointer_moved st) cam).scale = cam.scale ∧
       (ps.foldl (pointer_moved st) cam).rotDir = cam.rotDir) := by
  intro ps
  induction ps with
  | nil => intro cam; exact ⟨rfl, rfl⟩
  | cons p rest ih =>
    intro cam
    rw [List.foldl_cons]
    have h1 := ih (pointer_moved st cam p)
    have h2 := pointer_moved_keeps st cam p
    exact ⟨h1.1.trans h2.1, h1.2.trans h2.2⟩

lemma pointer_moved_position_congr (st : SceneCtrlState)
    (a : (ℚ × ℚ) × (ℚ × ℚ)) (ha : st.drag_anchor = some a)
    (c1 c2 : Camera) (hsc : c1.scale = c2.scale) (hr : c1.rotDir = c2.rotDir)
    (pos : ℚ × ℚ) :
    (pointer_moved st c1 pos).position = (pointer_moved st c2 pos).position := by
  simp [pointer_moved, ha, screen_delta_to_world, hsc, hr]

/-- Claim C9: drag decomposition invariance.  For a drag that starts with
PointerDown at screen point A, with scale and rotation held fixed during the
drag (each pointer move rewrites only the camera position), routing the
pointer through any list of intermediate moves before the final move to B
leaves the camera at exactly the position a single direct move from A to B
produces, because every move recomputes the position from the anchor and not
incrementally. -/
theorem claim_C9 (st0 : SceneCtrlState) (cam : Camera) (A B : ℚ × ℚ)
    (mids : List (ℚ × ℚ)) (h : st0.drag_anchor = none) :
    ((mids ++ [B]).foldl (pointer_moved (pointer_down st0 cam A)) cam).position =
      (pointer_moved (pointer_down st0 cam A) cam B).position := by
  set st := pointer_down st0 cam A with hst
  have hanc : st.drag_anchor = some (A, cam.position) := by
    rw [hst]
    simp [pointer_down, h]
  rw [List.foldl_append]
  have hk := foldl_pointer_moved_keeps st mids cam
  exact pointer_moved_position_congr st (A, cam.position) hanc
    (mids.foldl (pointer_moved st) cam) cam hk.1 hk.2 B

/-- Claim C9, witness: a drag from (100,100) to (150,120) at scale three
twentieths with no rotation, split through two intermediate points. -/
theorem claim_C9_witness :
    (SceneCtrlState.mk none).drag_anchor = none ∧
    ((([((120 : ℚ), (111 : ℚ)), (140, 115)] ++ [((150 : ℚ), (120 : ℚ))]).foldl
        (pointer_moved (pointer_down (SceneCtrlState.mk none)
          { position := (0, 0), scale := (3 / 20, 3 / 20), rotDir := (1, 0) }
          (100, 100)))
        { position := (0, 0), scale := (3 / 20, 3 / 20), rotDir := (1, 0) }).position =
      (pointer_moved (pointer_down (SceneCtrlState.mk none)
          { position := (0, 0), scale := (3 / 20, 3 / 20), rotDir := (1, 0) }
          (100, 100))
        { position := (0, 0), scale := (3 / 20, 3 / 20), rotDir := (1, 0) }
        (150, 120)).position) :=
  ⟨rfl, claim_C9 (SceneCtrlState.mk none)
    { position := (0, 0), scale := (3 / 20, 3 / 20), rotDir := (1, 0) }
    (100, 100) (150, 120) [(120, 111), (140, 115)] rfl⟩

end InoxWasm
